import Mathlib

/-
  Shallow embedding of the provider-adapter modules of the guess-who
  repository: src/anthropic.js, src/openai.js (the stateful second
  variant, which the claims cite), src/openrouter.js, src/gemini.js,
  and the streaming decoders of src/unnamed/part_000 (Anthropic SSE
  variant) and src/unnamed/part_001 (OpenRouter SSE variant).

  Modelling conventions:
  * Network effects are modelled by passing the HTTP status code (and,
    where the code reads it, the decoded error-body message) to the
    embedded function as an argument.
  * JSON.parse of a stream fragment is modelled by feeding the decoder
    the parse result: a payload that parses is given as a structured
    value, a payload that fails to parse as a dedicated `malformed`
    (resp. `none`) alternative, because the decoders only branch on
    parse success, never on the raw bytes.
  * JSON.stringify of an opaque object (tool-call inputs/arguments) is
    modelled by carrying the serialized string directly.
  * JavaScript truthiness of an optional string is modelled by
    `truthyOpt` (absent or empty means falsy).
-/

namespace GuessWho

/-- Internal message roles used by the adapters. -/
inductive Role
  | system
  | user
  | assistant
deriving DecidableEq, Repr

/-- JS truthiness of a possibly-absent string value. -/
def truthyOpt : Option String → Bool
  | none => false
  | some s => !(s == "")

/-- The value of `a || d` for a possibly-absent string `a`. -/
def strOr (o : Option String) (d : String) : String :=
  match o with
  | some s => if s == "" then d else s
  | none => d

/-- Does `l` start with `sub`? (helper for the substring check). -/
def charsStart : List Char → List Char → Bool
  | _, [] => true
  | [], _ :: _ => false
  | a :: as, b :: bs => a == b && charsStart as bs

/-- JavaScript's String.includes: does `l` contain `sub` as a contiguous run? -/
def charsIncl : List Char → List Char → Bool
  | [], sub => sub.isEmpty
  | a :: rest, sub => charsStart (a :: rest) sub || charsIncl rest sub

/-- String.includes on Lean strings. -/
def strIncl (s sub : String) : Bool := charsIncl s.data sub.data

/-- Case-insensitive substring test (used to state what the spec asks for). -/
def strInclCI (s sub : String) : Bool :=
  charsIncl (s.data.map Char.toLower) (sub.data.map Char.toLower)

/-- fetch's response.ok: status in the 200-299 range. -/
def isOkStatus (s : Nat) : Bool := 200 ≤ s && s ≤ 299

/-- Is an Except value an error? -/
def exceptIsError {ε α : Type} : Except ε α → Bool
  | .error _ => true
  | .ok _ => false

/-- A tool definition as passed to callAPI (OpenAI-shaped, per the spec's
ToolDefinition); the JSON schema is carried as an opaque serialized string. -/
structure ToolDef where
  name : String
  description : String
  parameters : String
deriving DecidableEq, Repr

/-- A normalized tool call as returned by every streamResponse:
vendor shape is the nested object with id, type and function.name /
function.arguments; we flatten the function object into two fields. -/
structure ToolCall where
  id : String
  type : String
  name : String
  arguments : String
deriving DecidableEq, Repr

/-- The images argument of createMultimodalMessage: absent/null, a single
base64 string (backward-compatibility shorthand), or an array of them. -/
inductive ImgArg
  | absent
  | one (s : String)
  | many (l : List String)
deriving DecidableEq, Repr

/-- JS truthiness of the images argument: null is falsy, the empty string
is falsy, every array (even the empty one) is truthy. -/
def ImgArg.truthy : ImgArg → Bool
  | .absent => false
  | .one s => !(s == "")
  | .many _ => true

/-- JS template interpolation of the images argument into a string
(an array interpolates as its comma-joined elements). -/
def ImgArg.interp : ImgArg → String
  | .absent => "null"
  | .one s => s
  | .many l => String.intercalate "," l

/-- The message argument accepted by callAPI: a plain string (wrapped as a
user turn) or a structured multimodal message, which at every call site is
the output of the provider's createMultimodalMessage on the given text and
images, pushed verbatim. -/
inductive ChatInput
  | str (s : String)
  | multimodal (text : Option String) (imgs : ImgArg)
deriving DecidableEq, Repr

/-- The normalized result every streamResponse returns:
response text, hasToolCalls flag and the assembled tool calls. -/
structure ChatStreamResult where
  response : String
  hasToolCalls : Bool
  toolCalls : List ToolCall
deriving DecidableEq, Repr

/-- One line of an SSE body, as seen by the line loop of the streaming
decoders, with JSON.parse of the payload pre-applied: a line not starting
with the data marker, the terminal sentinel, a data line whose payload
fails JSON.parse, or a data line whose payload parses to a value of δ. -/
inductive StreamLine (δ : Type)
  | nonData (raw : String)
  | doneMark
  | malformed
  | payload (d : δ)

namespace Anthropic

/-- A content block of an Anthropic message (src/anthropic.js
createImageContent: type image, base64 source, image/png). -/
inductive Block
  | text (s : String)
  | image (data : String)
deriving DecidableEq, Repr

/-- Message content: a plain string or a block array. -/
inductive Content
  | str (s : String)
  | blocks (bs : List Block)
deriving DecidableEq, Repr

/-- A conversation message as stored in this.conversationHistory. -/
structure Message where
  role : Role
  content : Content
deriving DecidableEq, Repr

/-- The adapter's mutable state: conversationHistory and systemPrompt,
as initialized by the constructor. -/
structure State where
  conversationHistory : List Message := []
  systemPrompt : String := ""
deriving DecidableEq, Repr

/-- The state the constructor produces. -/
def initState : State := {}

/-- createImageContent (the block it builds, with fixed png media type). -/
def createImageContent (base64Image : String) : Block := .image base64Image

/-- createMultimodalMessage: optional text block, then the images — an
array is iterated with falsy entries skipped, a single truthy non-array
value is pushed as one image block. -/
def createMultimodalMessage (textContent : Option String) (imgs : ImgArg) : Message :=
  let content : List Block :=
    (if truthyOpt textContent then [Block.text (textContent.getD "")] else []) ++
    (match imgs with
     | .many l => (l.filter (fun b => !(b == ""))).map createImageContent
     | .one s => if s == "" then [] else [createImageContent s]
     | .absent => [])
  ⟨.user, .blocks content⟩

/-- The user message callAPI appends: a string is wrapped as a user turn;
a multimodal message (built by createMultimodalMessage) is pushed verbatim. -/
def userMessage : ChatInput → Message
  | .str s => ⟨.user, .str s⟩
  | .multimodal t i => createMultimodalMessage t i

/-- addToHistory. -/
def addToHistory (st : State) (m : Message) : State :=
  { st with conversationHistory := st.conversationHistory ++ [m] }

/-- clearHistory. -/
def clearHistory (st : State) : State :=
  { st with conversationHistory := [], systemPrompt := "" }

/-- setSystemPrompt: stores the prompt in the side channel and clears
the history. -/
def setSystemPrompt (st : State) (p : String) : State :=
  { st with systemPrompt := p, conversationHistory := [] }

/-- An Anthropic-shaped tool definition (callAPI converts OpenAI shape). -/
structure VendorTool where
  name : String
  description : String
  inputSchema : String
deriving DecidableEq, Repr

/-- The request body callAPI builds. -/
structure Params where
  model : String
  maxTokens : Nat
  messages : List Message
  stream : Bool
  tools : Option (List VendorTool)
  system : Option String
deriving DecidableEq, Repr

/-- The errors callAPI throws on a non-ok response. -/
inductive ApiError
  | invalidKey
  | rateLimited
  | requestFailed (status : Nat)
deriving DecidableEq, Repr

/-- What one callAPI invocation produces: the mutated state, the encoded
request body, and either success (the response is handed on) or the
thrown error. -/
structure CallResult where
  state : State
  params : Params
  result : Except ApiError Unit
deriving Repr

/-- callAPI: appends the user turn first, then builds the body from the
updated history (tools converted to Anthropic shape, system prompt only
when truthy), then checks the response status. -/
def callAPI (st : State) (message : ChatInput) (model : String)
    (tools : List ToolDef) (status : Nat) : CallResult :=
  let st' := addToHistory st (userMessage message)
  let params : Params :=
    { model := model
      maxTokens := 4096
      messages := st'.conversationHistory
      stream := false
      tools := if tools.length > 0
        then some (tools.map fun t => ⟨t.name, t.description, t.parameters⟩)
        else none
      system := if st'.systemPrompt == "" then none else some st'.systemPrompt }
  let result : Except ApiError Unit :=
    if isOkStatus status then .ok ()
    else if status = 401 then .error .invalidKey
    else if status = 429 then .error .rateLimited
    else .error (.requestFailed status)
  ⟨st', params, result⟩

/-- A content block of the (non-streaming) response body; tool_use input
is carried in its serialized form. -/
inductive RespBlock
  | text (s : String)
  | toolUse (id name input : String)
  | other
deriving DecidableEq, Repr

/-- The decoded response body. -/
structure RespData where
  content : List RespBlock
deriving DecidableEq, Repr

/-- The extraction loop of streamResponse over the content blocks:
text accumulates, tool_use blocks become normalized tool calls. -/
def extract (blocks : List RespBlock) : String × Bool × List ToolCall :=
  blocks.foldl
    (fun (a : String × Bool × List ToolCall) b =>
      match b with
      | .text s => (a.1 ++ s, a.2.1, a.2.2)
      | .toolUse i n inp => (a.1, true, a.2.2 ++ [⟨i, "function", n, inp⟩])
      | .other => a)
    ("", false, [])

/-- streamResponse: extracts text and tool calls from the body, appends
the assistant turn (the accumulated text only) to the history, and
returns the normalized result. -/
def streamResponse (st : State) (data : RespData) : State × ChatStreamResult :=
  let e := extract data.content
  (addToHistory st ⟨.assistant, .str e.1⟩, ⟨e.1, e.2.1, e.2.2⟩)

/-- The assistant message streamResponse records for a given body. -/
def assistantMessage (data : RespData) : Message :=
  ⟨.assistant, .str (extract data.content).1⟩

/-- The error taxonomy of validateApiKey, one constructor per throw site. -/
inductive ValidationError
  | invalidKey
  | rateLimited
  | modelAccessDenied
  | invalidModel
  | validationFailed (msg : String)
  | invalidKeyFormat
  | otherWithMessage (msg : String)
  | otherGeneric (status : Nat)
deriving DecidableEq, Repr

/-- validateApiKey, over the response status and the error-body message
(none models an absent or unparsable body or an absent message field). -/
def validateApiKey (status : Nat) (errMessage : Option String) :
    Except ValidationError Unit :=
  if status = 401 then .error .invalidKey
  else if status = 429 then .error .rateLimited
  else if status = 403 then .error .modelAccessDenied
  else if status = 400 then
    match errMessage with
    | some m =>
      if !(m == "") then
        if strIncl m "model" || strIncl m "Model" then .error .invalidModel
        else .error (.validationFailed m)
      else .error .invalidKeyFormat
    | none => .error .invalidKeyFormat
  else if !(isOkStatus status) then
    match errMessage with
    | some m =>
      if !(m == "") then .error (.otherWithMessage m)
      else .error (.otherGeneric status)
    | none => .error (.otherGeneric status)
  else .ok ()

end Anthropic

namespace OpenAI

/-- A content block of an OpenAI-family message (createImageContent:
type image_url with a data URL). -/
inductive Block
  | text (s : String)
  | imageUrl (url : String)
deriving DecidableEq, Repr

/-- Message content: a plain string or a block array. -/
inductive Content
  | str (s : String)
  | blocks (bs : List Block)
deriving DecidableEq, Repr

/-- A conversation message as stored in this.conversationHistory. -/
structure Message where
  role : Role
  content : Content
deriving DecidableEq, Repr

/-- The adapter's mutable state (the OpenAI adapter keeps no separate
system-prompt field). -/
structure State where
  conversationHistory : List Message := []
deriving DecidableEq, Repr

/-- The state the constructor produces. -/
def initState : State := {}

/-- createImageContent: builds the data URL by template interpolation of
the raw argument (so an array argument is interpolated verbatim). -/
def createImageContent (img : ImgArg) : Block :=
  .imageUrl ("data:image/png;base64," ++ img.interp)

/-- createMultimodalMessage: optional text block, then — if the single
image argument is truthy — one image_url block.  There is no array
handling in this adapter. -/
def createMultimodalMessage (textContent : Option String) (img : ImgArg) : Message :=
  let content : List Block :=
    (if truthyOpt textContent then [Block.text (textContent.getD "")] else []) ++
    (if img.truthy then [createImageContent img] else [])
  ⟨.user, .blocks content⟩

/-- The user message callAPI appends. -/
def userMessage : ChatInput → Message
  | .str s => ⟨.user, .str s⟩
  | .multimodal t i => createMultimodalMessage t i

/-- addToHistory. -/
def addToHistory (st : State) (m : Message) : State :=
  { st with conversationHistory := st.conversationHistory ++ [m] }

/-- clearHistory. -/
def clearHistory (_st : State) : State := {}

/-- setSystemPrompt: clears the history and inserts a synthetic system
message as element zero. -/
def setSystemPrompt (_st : State) (p : String) : State :=
  { conversationHistory := [⟨.system, .str p⟩] }

/-- An OpenAI tool entry: the definition wrapped as type function. -/
structure VendorTool where
  type : String
  function : ToolDef
deriving DecidableEq, Repr

/-- The request body callAPI builds. -/
structure Params where
  model : String
  messages : List Message
  stream : Bool
  tools : Option (List VendorTool)
deriving DecidableEq, Repr

/-- The errors callAPI throws on a non-ok response; the fallthrough
carries the stringified error body or the no-details placeholder. -/
inductive ApiError
  | invalidKey
  | rateLimited
  | other (msg : String)
deriving DecidableEq, Repr

/-- What one callAPI invocation produces. -/
structure CallResult where
  state : State
  params : Params
  result : Except ApiError Unit
deriving Repr

/-- callAPI: appends the user turn first, then builds the body from the
updated history, then checks the response status.  errBody is the
stringified error body when the body parsed as JSON. -/
def callAPI (st : State) (message : ChatInput) (model : String)
    (tools : List ToolDef) (status : Nat) (errBody : Option String) : CallResult :=
  let st' := addToHistory st (userMessage message)
  let params : Params :=
    { model := model
      messages := st'.conversationHistory
      stream := false
      tools := if tools.length > 0
        then some (tools.map fun t => ⟨"function", t⟩)
        else none }
  let result : Except ApiError Unit :=
    if isOkStatus status then .ok ()
    else if status = 401 then .error .invalidKey
    else if status = 429 then .error .rateLimited
    else .error (.other (match errBody with
      | some b => b
      | none => "(no JSON error details)"))
  ⟨st', params, result⟩

/-- The message object of the first choice of the (non-streaming)
response body. -/
structure RespMessage where
  content : Option String
  toolCalls : List ToolCall
deriving DecidableEq, Repr

/-- One choice of the response body. -/
structure Choice where
  message : RespMessage
deriving DecidableEq, Repr

/-- The decoded response body. -/
structure RespData where
  choices : List Choice
deriving DecidableEq, Repr

/-- The extraction step of streamResponse: text from a truthy
message.content, tool calls from a non-empty message.tool_calls. -/
def extract (data : RespData) : String × Bool × List ToolCall :=
  match data.choices.head? with
  | some c =>
    ((if truthyOpt c.message.content then c.message.content.getD "" else ""),
     (if c.message.toolCalls.length > 0 then true else false),
     (if c.message.toolCalls.length > 0 then c.message.toolCalls else []))
  | none => ("", false, [])

/-- streamResponse: extracts text and tool calls, appends the assistant
turn (the accumulated text only) and returns the normalized result. -/
def streamResponse (st : State) (data : RespData) : State × ChatStreamResult :=
  let e := extract data
  (addToHistory st ⟨.assistant, .str e.1⟩, ⟨e.1, e.2.1, e.2.2⟩)

/-- The assistant message streamResponse records for a given body. -/
def assistantMessage (data : RespData) : Message :=
  ⟨.assistant, .str (extract data).1⟩

end OpenAI

namespace OpenRouter

/-- A catalog entry as stored in this.models. -/
structure CatModel where
  value : String
  name : String
deriving DecidableEq, Repr

/-- An entry of the fetched model catalog.  The chained truthiness check
model.architecture && model.architecture.input_modalities is collapsed
into one optional modality list (none when either link is absent). -/
structure ApiModel where
  id : String
  name : Option String
  modalities : Option (List String)
deriving DecidableEq, Repr

/-- The adapter's mutable state: conversation history plus the
dynamically loaded catalog fields.  Message shape is OpenAI's (the
OpenRouter adapter stores and encodes the very same shapes). -/
structure State where
  conversationHistory : List OpenAI.Message := []
  models : List CatModel := []
  defaultModel : Option String := none
  modelsLoaded : Bool := false
deriving DecidableEq, Repr

/-- The state the constructor produces. -/
def initState : State := {}

/-- The vision filter of loadModels: keep entries whose (present)
input_modalities include the image modality. -/
def visionFilter (data : List ApiModel) : List ApiModel :=
  data.filter fun m =>
    match m.modalities with
    | some l => l.contains "image"
    | none => false

/-- The catalog mapping of loadModels: model.name || model.id. -/
def mapCatalog (ms : List ApiModel) : List CatModel :=
  ms.map fun m => ⟨m.id, strOr m.name m.id⟩

/-- The in-try fallback list used when the fetch succeeded but no vision
model was found. -/
def fallbackEmpty : List CatModel :=
  [⟨"openai/gpt-4o", "GPT-4o"⟩,
   ⟨"openai/gpt-4o-mini", "GPT-4o Mini"⟩,
   ⟨"anthropic/claude-3-5-sonnet", "Claude 3.5 Sonnet"⟩,
   ⟨"anthropic/claude-3-sonnet", "Claude 3 Sonnet"⟩]

/-- The catch-block fallback list used when the fetch itself failed. -/
def fallbackError : List CatModel :=
  [⟨"openai/gpt-4o", "GPT-4o"⟩,
   ⟨"openai/gpt-4o-mini", "GPT-4o Mini"⟩,
   ⟨"anthropic/claude-3-5-sonnet", "Claude 3.5 Sonnet"⟩,
   ⟨"anthropic/claude-3-sonnet", "Claude 3 Sonnet"⟩,
   ⟨"anthropic/claude-3-opus", "Claude 3 Opus"⟩]

/-- The outcome of the catalog fetch: a decoded body, a non-ok HTTP
status, or a network-level exception. -/
inductive FetchOutcome
  | success (data : List ApiModel)
  | httpFail (status : Nat)
  | netFail
deriving DecidableEq, Repr

/-- The errors loadModels throws. -/
inductive LoadError
  | missingKey
  | fetchFailed (status : Nat)
  | network
deriving DecidableEq, Repr

/-- loadModels: early return when already loaded, missing-key throw
outside the try block, then the fetch; a non-ok response throws into the
catch block, which installs the static fallback catalog, marks the
catalog loaded — and rethrows the error to the caller. -/
def loadModels (st : State) (apiKey : Option String) (fetch : FetchOutcome) :
    State × Except LoadError (List CatModel) :=
  if st.modelsLoaded && st.models.length > 0 then (st, .ok st.models)
  else if !(truthyOpt apiKey) then (st, .error .missingKey)
  else
    match fetch with
    | .success data =>
      let vision := visionFilter data
      let models := if vision.length = 0 then fallbackEmpty else mapCatalog vision
      let st' : State :=
        { st with
          models := models
          defaultModel := match models.head? with
            | some m => some m.value
            | none => st.defaultModel
          modelsLoaded := true }
      (st', .ok models)
    | .httpFail status =>
      ({ st with models := fallbackError, defaultModel := some "openai/gpt-4o",
                 modelsLoaded := true },
       .error (.fetchFailed status))
    | .netFail =>
      ({ st with models := fallbackError, defaultModel := some "openai/gpt-4o",
                 modelsLoaded := true },
       .error .network)

/-- addToHistory. -/
def addToHistory (st : State) (m : OpenAI.Message) : State :=
  { st with conversationHistory := st.conversationHistory ++ [m] }

/-- clearHistory. -/
def clearHistory (st : State) : State := { st with conversationHistory := [] }

/-- setSystemPrompt: clears the history and inserts a synthetic system
message as element zero. -/
def setSystemPrompt (st : State) (p : String) : State :=
  { st with conversationHistory := [⟨.system, .str p⟩] }

/-- createImageContent (same data-URL shape as OpenAI's). -/
def createImageContent (img : ImgArg) : OpenAI.Block :=
  .imageUrl ("data:image/png;base64," ++ img.interp)

/-- createMultimodalMessage (single-image signature, like OpenAI's). -/
def createMultimodalMessage (textContent : Option String) (img : ImgArg) :
    OpenAI.Message :=
  let content : List OpenAI.Block :=
    (if truthyOpt textContent then [OpenAI.Block.text (textContent.getD "")] else []) ++
    (if img.truthy then [createImageContent img] else [])
  ⟨.user, .blocks content⟩

/-- The user message callAPI appends. -/
def userMessage : ChatInput → OpenAI.Message
  | .str s => ⟨.user, .str s⟩
  | .multimodal t i => createMultimodalMessage t i

/-- The errors callAPI throws on a non-ok response. -/
inductive ApiError
  | invalidKey
  | rateLimited
  | insufficientCredits
  | other (msg : String)
deriving DecidableEq, Repr

/-- What one callAPI invocation produces. -/
structure CallResult where
  state : State
  params : OpenAI.Params
  result : Except ApiError Unit
deriving Repr

/-- callAPI: appends the user turn first, builds the OpenAI-shaped body,
then checks the response status; errMessage models
errorData error message when the error body parsed. -/
def callAPI (st : State) (message : ChatInput) (model : String)
    (tools : List ToolDef) (status : Nat) (errMessage : Option String) : CallResult :=
  let st' := addToHistory st (userMessage message)
  let params : OpenAI.Params :=
    { model := model
      messages := st'.conversationHistory
      stream := false
      tools := if tools.length > 0
        then some (tools.map fun t => ⟨"function", t⟩)
        else none }
  let result : Except ApiError Unit :=
    if isOkStatus status then .ok ()
    else if status = 401 then .error .invalidKey
    else if status = 429 then .error .rateLimited
    else if status = 402 then .error .insufficientCredits
    else .error (.other (strOr errMessage ("API request failed: " ++ toString status)))
  ⟨st', params, result⟩

/-- streamResponse: identical extraction to OpenAI's atomic decode,
appending the assistant turn with the accumulated text only. -/
def streamResponse (st : State) (data : OpenAI.RespData) : State × ChatStreamResult :=
  let e := OpenAI.extract data
  (addToHistory st ⟨.assistant, .str e.1⟩, ⟨e.1, e.2.1, e.2.2⟩)

/-- The assistant message streamResponse records for a given body. -/
def assistantMessage (data : OpenAI.RespData) : OpenAI.Message :=
  ⟨.assistant, .str (OpenAI.extract data).1⟩

end OpenRouter

namespace Gemini

/-- Gemini wire roles: addToHistory remaps assistant to model and keeps
any other role unchanged. -/
inductive GRole
  | user
  | model
  | system
deriving DecidableEq, Repr

/-- A content item of a foreign-shaped (Anthropic-style) multimodal
message, as inspected by callAPI's conversion branch: a text item, an
image item with a base64 source, an image item without a source (kept
verbatim), or any other item (kept verbatim). -/
inductive ForeignItem
  | text (s : String)
  | image (mediaType data : String)
  | imageNoSource
  | otherItem
deriving DecidableEq, Repr

/-- A part of a Gemini message: a text part, an inlineData part, or a
foreign content item copied verbatim by the conversion branch. -/
inductive Part
  | text (s : String)
  | inlineData (mimeType data : String)
  | fromItem (it : ForeignItem)
deriving DecidableEq, Repr

/-- A conversation message as stored in this.conversationHistory. -/
structure Message where
  role : GRole
  parts : List Part
deriving DecidableEq, Repr

/-- The adapter's mutable state. -/
structure State where
  conversationHistory : List Message := []
  systemPrompt : String := ""
deriving DecidableEq, Repr

/-- The state the constructor produces. -/
def initState : State := {}

/-- The role remapping of addToHistory. -/
def toGeminiRole : Role → GRole
  | .assistant => .model
  | .user => .user
  | .system => .system

/-- addToHistory: wraps the content as a single text part under the
remapped role. -/
def addToHistory (st : State) (role : Role) (content : String) : State :=
  { st with conversationHistory :=
      st.conversationHistory ++ [⟨toGeminiRole role, [Part.text content]⟩] }

/-- clearHistory. -/
def clearHistory (st : State) : State :=
  { st with conversationHistory := [], systemPrompt := "" }

/-- setSystemPrompt: stores the prompt in the side channel and clears
the history. -/
def setSystemPrompt (st : State) (p : String) : State :=
  { st with systemPrompt := p, conversationHistory := [] }

/-- The message argument accepted by Gemini's callAPI: a plain string, a
message that already has a (truthy) parts array — rebuilt with role user
— a foreign-shaped message with a (truthy) content array, or any other
object, which is pushed as the text part of its JSON.stringify form. -/
inductive Input
  | str (s : String)
  | partsMsg (parts : List Part)
  | contentMsg (items : List ForeignItem)
  | otherMsg (stringified : String)
deriving DecidableEq, Repr

/-- The conversion of one foreign content item into a Gemini part. -/
def itemToPart : ForeignItem → Part
  | .text s => .text s
  | .image mt d => .inlineData mt d
  | .imageNoSource => .fromItem .imageNoSource
  | .otherItem => .fromItem .otherItem

/-- The user message callAPI pushes for each input shape (every branch
forces role user). -/
def userMessage : Input → Message
  | .str s => ⟨.user, [.text s]⟩
  | .partsMsg ps => ⟨.user, ps⟩
  | .contentMsg items => ⟨.user, items.map itemToPart⟩
  | .otherMsg s => ⟨.user, [.text s]⟩

/-- The request body callAPI builds.  tools models the single
functionDeclarations wrapper; systemInstruction carries the prompt text
that the code wraps as parts text.  The fixed generationConfig
(maxOutputTokens 4096, temperature 0.7) is not inspected by any claim
and is represented by the token ceiling alone. -/
structure Params where
  contents : List Message
  maxOutputTokens : Nat
  tools : Option (List ToolDef)
  systemInstruction : Option String
deriving DecidableEq, Repr

/-- The errors callAPI throws on a non-ok response (Gemini reports bad
keys as 400). -/
inductive ApiError
  | invalidKey
  | rateLimited
  | other (msg : String)
deriving DecidableEq, Repr

/-- What one callAPI invocation produces. -/
structure CallResult where
  state : State
  params : Params
  result : Except ApiError Unit
deriving Repr

/-- callAPI: pushes the user turn first, then builds the body from the
updated history (systemInstruction only when truthy), then checks the
response status. -/
def callAPI (st : State) (message : Input) (model : String)
    (tools : List ToolDef) (status : Nat) (errMessage : Option String) : CallResult :=
  let _ := model
  let st' := { st with conversationHistory :=
    st.conversationHistory ++ [userMessage message] }
  let params : Params :=
    { contents := st'.conversationHistory
      maxOutputTokens := 4096
      tools := if tools.length > 0 then some tools else none
      systemInstruction := if st'.systemPrompt == "" then none
        else some st'.systemPrompt }
  let result : Except ApiError Unit :=
    if isOkStatus status then .ok ()
    else if status = 400 then .error .invalidKey
    else if status = 429 then .error .rateLimited
    else .error (.other (strOr errMessage ("API request failed: " ++ toString status)))
  ⟨st', params, result⟩

/-- The opening-brace and closing-brace characters the scanner tracks. -/
def braceOpen : Char := '\x7b'

/-- The closing brace. -/
def braceClose : Char := '\x7d'

/-- The scanner state of streamResponse's character loop: inJsonObject,
bracketCount and the characters of the object being collected. -/
structure ScanState where
  inJsonObject : Bool := false
  bracketCount : Int := 0
  currentJsonObject : List Char := []
deriving DecidableEq, Repr

/-- One character step of the scanner: an opening brace (re)enters
object mode and deepens the nesting; a closing brace in object mode
shallows it and, at depth zero, emits the collected object; characters
outside any object are skipped. -/
def scanChar (a : List (List Char) × ScanState) (c : Char) :
    List (List Char) × ScanState :=
  let (emitted, st) := a
  if c == braceOpen then
    let st := if !st.inJsonObject
      then { inJsonObject := true, bracketCount := 0, currentJsonObject := [] }
      else st
    (emitted, { st with bracketCount := st.bracketCount + 1,
                        currentJsonObject := st.currentJsonObject ++ [c] })
  else if c == braceClose then
    if st.inJsonObject then
      let bc := st.bracketCount - 1
      let cur := st.currentJsonObject ++ [c]
      if bc = 0 then
        (emitted ++ [cur],
         { inJsonObject := false, bracketCount := bc, currentJsonObject := [] })
      else
        (emitted, { st with bracketCount := bc, currentJsonObject := cur })
    else (emitted, st)
  else if st.inJsonObject then
    (emitted, { st with currentJsonObject := st.currentJsonObject ++ [c] })
  else (emitted, st)

/-- One chunk iteration of streamResponse's read loop: the retained
buffer is extended by the chunk, rescanned from a fresh scanner state,
and the trailing incomplete object (if any) becomes the new buffer. -/
def chunkStep (a : List (List Char) × List Char) (chunk : List Char) :
    List (List Char) × List Char :=
  let buffer := a.2 ++ chunk
  let (objs, st) := buffer.foldl scanChar ([], {})
  (a.1 ++ objs, if st.inJsonObject then st.currentJsonObject else [])

/-- The complete JSON-object strings the scanner emits over a chunked
body (the decode of each emitted string is a function of that string,
so equal emissions mean equal decoded objects). -/
def scanChunks (chunks : List (List Char)) : List (List Char) :=
  (chunks.foldl chunkStep ([], [])).1

/-- A functionCall part of a decoded response object; args carries the
serialized form of the argument object (absent when the vendor sent
none, in which case the code stringifies the empty object). -/
structure FnCall where
  name : String
  args : Option String
deriving DecidableEq, Repr

/-- A part of a decoded response object: the code tests part.text and
part.functionCall independently. -/
structure RespPart where
  text : Option String := none
  functionCall : Option FnCall := none
deriving DecidableEq, Repr

/-- The content of a decoded candidate. -/
structure RespContent where
  parts : List RespPart
deriving DecidableEq, Repr

/-- A candidate of a decoded response object. -/
structure Candidate where
  content : Option RespContent
deriving DecidableEq, Repr

/-- One decoded response object of the concatenated-JSON stream. -/
structure ChunkData where
  candidates : List Candidate
deriving DecidableEq, Repr

/-- The running accumulator of streamResponse. -/
structure Acc where
  acc : String := ""
  hasToolCalls : Bool := false
  toolCalls : List ToolCall := []
deriving DecidableEq, Repr

/-- The synthesized tool-call identifier gemini_{timestamp}_{ordinal};
the Date.now() timestamp is an explicit parameter. -/
def toolId (now : Nat) (ordinal : Nat) : String :=
  "gemini_" ++ toString now ++ "_" ++ toString ordinal

/-- Processing of one part: truthy text accumulates; a functionCall
becomes a normalized tool call with a synthesized id and the serialized
arguments (empty object when absent). -/
def processPart (now : Nat) (a : Acc) (p : RespPart) : Acc :=
  let a := if truthyOpt p.text then { a with acc := a.acc ++ p.text.getD "" } else a
  match p.functionCall with
  | some fc =>
    { a with hasToolCalls := true,
             toolCalls := a.toolCalls ++
               [⟨toolId now a.toolCalls.length, "function", fc.name,
                 fc.args.getD "\x7b\x7d"⟩] }
  | none => a

/-- Processing of one emitted object after JSON.parse: a parse failure
(none) is logged and skipped; otherwise the parts of the first
candidate's content are processed in order. -/
def processObject (now : Nat) (a : Acc) (obj : Option ChunkData) : Acc :=
  match obj with
  | none => a
  | some d =>
    match d.candidates.head? with
    | some cand =>
      match cand.content with
      | some c => c.parts.foldl (processPart now) a
      | none => a
    | none => a

/-- The object-level pipeline of streamResponse: every emitted object,
in order, through processObject. -/
def processObjects (now : Nat) (objs : List (Option ChunkData)) : Acc :=
  objs.foldl (processObject now) {}

/-- streamResponse after the scanner: accumulates over the decoded
objects, then appends the assistant turn (role model, accumulated text
only) to the history and returns the normalized result. -/
def streamResponse (st : State) (now : Nat) (objs : List (Option ChunkData)) :
    State × ChatStreamResult :=
  let a := processObjects now objs
  (addToHistory st .assistant a.acc, ⟨a.acc, a.hasToolCalls, a.toolCalls⟩)

/-- The assistant message streamResponse records for a given object
sequence. -/
def assistantMessage (now : Nat) (objs : List (Option ChunkData)) : Message :=
  ⟨.model, [.text (processObjects now objs).acc]⟩

/-- createImageContent: an inlineData part with fixed png mime type. -/
def createImageContent (base64Image : String) : Part :=
  .inlineData "image/png" base64Image

/-- createMultimodalMessage: optional text part, then the images — an
array is iterated with falsy entries skipped, a single truthy non-array
value is pushed as one inlineData part. -/
def createMultimodalMessage (textContent : Option String) (imgs : ImgArg) : Message :=
  let parts : List Part :=
    (if truthyOpt textContent then [Part.text (textContent.getD "")] else []) ++
    (match imgs with
     | .many l => (l.filter (fun b => !(b == ""))).map createImageContent
     | .one s => if s == "" then [] else [createImageContent s]
     | .absent => [])
  ⟨.user, parts⟩

end Gemini

/-- An OpenAI-family streaming tool-call delta fragment: the optional
nested function object is flattened into the two optional fields it may
carry. -/
structure OADeltaToolCall where
  id : String
  type : Option String := none
  fnName : Option String := none
  fnArguments : Option String := none
deriving DecidableEq, Repr

/-- An OpenAI-family delta: optional text content and an optional
tool-call fragment list. -/
structure OADelta where
  content : Option String := none
  toolCalls : Option (List OADeltaToolCall) := none
deriving DecidableEq, Repr

/-- One choice of a streaming event (the decoders look only at the
first choice's delta). -/
structure OAChoiceDelta where
  delta : Option OADelta
deriving DecidableEq, Repr

/-- A parsed OpenAI-family streaming event. -/
structure OAStreamEvent where
  choices : List OAChoiceDelta
deriving DecidableEq, Repr

namespace OpenAIStream

/-- The accumulator of the first openai.js variant's streamResponse:
text plus the hasToolCalls flag (that decoder assembles no calls). -/
structure DState where
  acc : String := ""
  hasToolCalls : Bool := false
deriving DecidableEq, Repr

/-- One line step: only a parsable data-line payload whose first choice
has a delta is inspected; truthy content accumulates, a present
tool_calls field (even an empty list) raises the flag. -/
def step (s : DState) (line : StreamLine OAStreamEvent) : DState :=
  match line with
  | .payload ev =>
    match ev.choices.head? with
    | some ch =>
      match ch.delta with
      | some d =>
        let s := if truthyOpt d.content
          then { s with acc := s.acc ++ d.content.getD "" } else s
        if d.toolCalls.isSome then { s with hasToolCalls := true } else s
      | none => s
    | none => s
  | _ => s

/-- The whole line loop. -/
def decode (lines : List (StreamLine OAStreamEvent)) : DState :=
  lines.foldl step {}

end OpenAIStream

namespace OpenRouterStream

/-- The decoder state of part_001's streamResponse: accumulated text,
the flag, and the in-progress tool calls keyed by call id — a JS object
written with fresh non-integer-like string keys, so enumeration order is
insertion order, modelled as an association list. -/
structure DState where
  acc : String := ""
  hasToolCalls : Bool := false
  currentToolCalls : List (String × ToolCall) := []
deriving DecidableEq, Repr

/-- In-place field update of the association entry with the given key. -/
def assocUpdate (m : List (String × ToolCall)) (k : String)
    (f : ToolCall → ToolCall) : List (String × ToolCall) :=
  m.map fun p => if p.1 == k then (p.1, f p.2) else p

/-- One tool-call fragment: a new id opens an entry seeded from the
fragment (missing name/arguments default to empty, missing type to
function); a known id appends its truthy name and arguments fragments
field-wise. -/
def toolCallStep (m : List (String × ToolCall)) (tc : OADeltaToolCall) :
    List (String × ToolCall) :=
  match m.lookup tc.id with
  | none =>
    m ++ [(tc.id, ⟨tc.id, strOr tc.type "function",
                   strOr tc.fnName "", strOr tc.fnArguments ""⟩)]
  | some _ =>
    let m := if truthyOpt tc.fnName
      then assocUpdate m tc.id (fun c => { c with name := c.name ++ tc.fnName.getD "" })
      else m
    if truthyOpt tc.fnArguments
      then assocUpdate m tc.id
        (fun c => { c with arguments := c.arguments ++ tc.fnArguments.getD "" })
      else m

/-- One line step: truthy content accumulates; a present tool_calls
field raises the flag and folds each fragment through toolCallStep. -/
def step (s : DState) (line : StreamLine OAStreamEvent) : DState :=
  match line with
  | .payload ev =>
    match ev.choices.head? with
    | some ch =>
      match ch.delta with
      | some d =>
        let s := if truthyOpt d.content
          then { s with acc := s.acc ++ d.content.getD "" } else s
        match d.toolCalls with
        | some tcs =>
          { s with hasToolCalls := true,
                   currentToolCalls := tcs.foldl toolCallStep s.currentToolCalls }
        | none => s
      | none => s
    | none => s
  | _ => s

/-- The whole line loop. -/
def decode (lines : List (StreamLine OAStreamEvent)) : DState :=
  lines.foldl step {}

/-- Object.values of the accumulated map, taken at stream end. -/
def toolCallValues (s : DState) : List ToolCall :=
  s.currentToolCalls.map (·.2)

end OpenRouterStream

namespace AnthropicStream

/-- The delta object of a parsed Anthropic streaming event. -/
structure EvDelta where
  text : Option String := none
  partialJson : Option String := none
deriving DecidableEq, Repr

/-- The content_block object of a parsed Anthropic streaming event. -/
structure EvBlock where
  type : String
  id : String
  name : String
deriving DecidableEq, Repr

/-- A parsed Anthropic streaming event, dispatched on its type string. -/
structure Event where
  type : String
  delta : Option EvDelta := none
  contentBlock : Option EvBlock := none
deriving DecidableEq, Repr

/-- The decoder state of part_000's streamResponse: accumulated text,
the flag, the finished tool calls and the one in-progress call. -/
structure DState where
  acc : String := ""
  hasToolCalls : Bool := false
  toolCalls : List ToolCall := []
  currentToolCall : Option ToolCall := none
deriving DecidableEq, Repr

/-- One line step, transcribing the four independent if-statements of
the source in order: text delta accumulates; a tool_use
content_block_start opens the in-progress call with empty arguments; a
partial_json delta appends to the in-progress call's arguments; a
content_block_stop pushes and closes the in-progress call. -/
def step (s : DState) (line : StreamLine Event) : DState :=
  match line with
  | .payload p =>
    let s := if p.type == "content_block_delta" then
        match p.delta with
        | some d => if truthyOpt d.text
            then { s with acc := s.acc ++ d.text.getD "" } else s
        | none => s
      else s
    let s := if p.type == "content_block_start" then
        match p.contentBlock with
        | some cb => if cb.type == "tool_use" then
            { s with hasToolCalls := true,
                     currentToolCall := some ⟨cb.id, "function", cb.name, ""⟩ }
          else s
        | none => s
      else s
    let s := if p.type == "content_block_delta" then
        match p.delta with
        | some d => if truthyOpt d.partialJson then
            match s.currentToolCall with
            | some ct =>
              let ct' : ToolCall :=
                { ct with arguments := ct.arguments ++ d.partialJson.getD "" }
              { s with currentToolCall := some ct' }
            | none => s
          else s
        | none => s
      else s
    if p.type == "content_block_stop" then
      match s.currentToolCall with
      | some ct => { s with toolCalls := s.toolCalls ++ [ct], currentToolCall := none }
      | none => s
    else s
  | _ => s

/-- The whole line loop. -/
def decode (lines : List (StreamLine Event)) : DState :=
  lines.foldl step {}

end AnthropicStream

/-! ### Round-trip machinery shared by the history theorems -/

/-- The interleaved log of a round sequence: user turn, assistant turn,
user turn, assistant turn, in round order. -/
def chatLog {ι ρ α : Type} (u : ι → α) (a : ρ → α) : List (ι × ρ) → List α
  | [] => []
  | p :: ps => u p.1 :: a p.2 :: chatLog u a ps

/-- n repetitions of the two-element pattern x, y. -/
def altPattern {β : Type} (x y : β) : Nat → List β
  | 0 => []
  | n + 1 => x :: y :: altPattern x y n

theorem chatLog_length {ι ρ α : Type} (u : ι → α) (a : ρ → α) :
    ∀ ps : List (ι × ρ), (chatLog u a ps).length = 2 * ps.length := by
  intro ps
  induction ps with
  | nil => rfl
  | cons p ps ih => simp [chatLog, ih]; ring

theorem chatLog_map {ι ρ α β : Type} (u : ι → α) (a : ρ → α) (f : α → β)
    (x y : β) (hu : ∀ i, f (u i) = x) (ha : ∀ r, f (a r) = y) :
    ∀ ps : List (ι × ρ), (chatLog u a ps).map f = altPattern x y ps.length := by
  intro ps
  induction ps with
  | nil => rfl
  | cons p ps ih => simp [chatLog, altPattern, hu, ha, ih]

/-- A fold of two-appends-per-round steps grows the projected history by
the interleaved log, in order and without touching earlier entries. -/
theorem histFoldl {σ ι ρ α : Type} (hist : σ → List α) (u : ι → α) (a : ρ → α)
    (step : σ → ι × ρ → σ)
    (hstep : ∀ s p, hist (step s p) = hist s ++ [u p.1, a p.2]) :
    ∀ (rounds : List (ι × ρ)) (s : σ),
      hist (List.foldl step s rounds) = hist s ++ chatLog u a rounds := by
  intro rounds
  induction rounds with
  | nil => intro s; simp [chatLog]
  | cons p ps ih =>
    intro s
    simp [List.foldl_cons, chatLog, ih (step s p), hstep]

/-- A fold step that leaves the state unchanged on a designated element
can be dropped from anywhere in the input list. -/
theorem foldlSkipElem {α σ : Type} (step : σ → α → σ) (z : α)
    (h : ∀ s, step s z = s) :
    ∀ (xs ys : List α) (s : σ),
      List.foldl step s (xs ++ z :: ys) = List.foldl step s (xs ++ ys) := by
  intro xs
  induction xs with
  | nil => intro ys s; simp [List.foldl_cons, h]
  | cons a as ih => intro ys s; simp only [List.cons_append, List.foldl_cons]; exact ih ys (step s a)

/-- One successful Anthropic round trip: callAPI then streamResponse. -/
def Anthropic.round (model : String) (tools : List ToolDef) (status : Nat)
    (st : Anthropic.State) (p : ChatInput × Anthropic.RespData) : Anthropic.State :=
  (Anthropic.streamResponse (Anthropic.callAPI st p.1 model tools status).state p.2).1

/-- N Anthropic round trips from the freshly constructed state. -/
def Anthropic.runRounds (model : String) (tools : List ToolDef) (status : Nat)
    (rounds : List (ChatInput × Anthropic.RespData)) : Anthropic.State :=
  rounds.foldl (Anthropic.round model tools status) Anthropic.initState

/-- One successful OpenAI round trip. -/
def OpenAI.round (model : String) (tools : List ToolDef) (status : Nat)
    (errBody : Option String) (st : OpenAI.State)
    (p : ChatInput × OpenAI.RespData) : OpenAI.State :=
  (OpenAI.streamResponse (OpenAI.callAPI st p.1 model tools status errBody).state p.2).1

/-- N OpenAI round trips from the freshly constructed state. -/
def OpenAI.runRounds (model : String) (tools : List ToolDef) (status : Nat)
    (errBody : Option String) (rounds : List (ChatInput × OpenAI.RespData)) :
    OpenAI.State :=
  rounds.foldl (OpenAI.round model tools status errBody) OpenAI.initState

/-- One successful OpenRouter round trip. -/
def OpenRouter.round (model : String) (tools : List ToolDef) (status : Nat)
    (errMessage : Option String) (st : OpenRouter.State)
    (p : ChatInput × OpenAI.RespData) : OpenRouter.State :=
  (OpenRouter.streamResponse
    (OpenRouter.callAPI st p.1 model tools status errMessage).state p.2).1

/-- N OpenRouter round trips from the freshly constructed state. -/
def OpenRouter.runRounds (model : String) (tools : List ToolDef) (status : Nat)
    (errMessage : Option String) (rounds : List (ChatInput × OpenAI.RespData)) :
    OpenRouter.State :=
  rounds.foldl (OpenRouter.round model tools status errMessage) OpenRouter.initState

/-- One successful Gemini round trip. -/
def Gemini.round (model : String) (tools : List ToolDef) (status : Nat)
    (errMessage : Option String) (now : Nat) (st : Gemini.State)
    (p : Gemini.Input × List (Option Gemini.ChunkData)) : Gemini.State :=
  (Gemini.streamResponse
    (Gemini.callAPI st p.1 model tools status errMessage).state now p.2).1

/-- N Gemini round trips from the freshly constructed state. -/
def Gemini.runRounds (model : String) (tools : List ToolDef) (status : Nat)
    (errMessage : Option String) (now : Nat)
    (rounds : List (Gemini.Input × List (Option Gemini.ChunkData))) : Gemini.State :=
  rounds.foldl (Gemini.round model tools status errMessage now) Gemini.initState

/-! ### The claims -/

/-- C1: for every provider adapter, starting from an empty
ConversationState, after N callAPI+streamResponse round trips the
history is exactly the interleaved log of the rounds — 2N messages in
strict insertion order, with roles alternating user, assistant (Gemini
stores the assistant role as its wire role model), regardless of any
tool calls carried by the responses, and no round reorders the messages
appended by earlier rounds. -/
theorem c1_round_trip_append_order :
    (∀ (model : String) (tools : List ToolDef) (status : Nat)
       (rounds : List (ChatInput × Anthropic.RespData)),
       (Anthropic.runRounds model tools status rounds).conversationHistory
         = chatLog Anthropic.userMessage Anthropic.assistantMessage rounds
       ∧ (Anthropic.runRounds model tools status rounds).conversationHistory.length
         = 2 * rounds.length
       ∧ (Anthropic.runRounds model tools status rounds).conversationHistory.map
           Anthropic.Message.role
         = altPattern Role.user Role.assistant rounds.length)
    ∧ (∀ (model : String) (tools : List ToolDef) (status : Nat)
         (errBody : Option String) (rounds : List (ChatInput × OpenAI.RespData)),
         (OpenAI.runRounds model tools status errBody rounds).conversationHistory
           = chatLog OpenAI.userMessage OpenAI.assistantMessage rounds
         ∧ (OpenAI.runRounds model tools status errBody rounds).conversationHistory.length
           = 2 * rounds.length
         ∧ (OpenAI.runRounds model tools status errBody rounds).conversationHistory.map
             OpenAI.Message.role
           = altPattern Role.user Role.assistant rounds.length)
    ∧ (∀ (model : String) (tools : List ToolDef) (status : Nat)
         (errMessage : Option String) (rounds : List (ChatInput × OpenAI.RespData)),
         (OpenRouter.runRounds model tools status errMessage rounds).conversationHistory
           = chatLog OpenRouter.userMessage OpenRouter.assistantMessage rounds
         ∧ (OpenRouter.runRounds model tools status errMessage rounds).conversationHistory.length
           = 2 * rounds.length
         ∧ (OpenRouter.runRounds model tools status errMessage rounds).conversationHistory.map
             OpenAI.Message.role
           = altPattern Role.user Role.assistant rounds.length)
    ∧ (∀ (model : String) (tools : List ToolDef) (status : Nat)
         (errMessage : Option String) (now : Nat)
         (rounds : List (Gemini.Input × List (Option Gemini.ChunkData))),
         (Gemini.runRounds model tools status errMessage now rounds).conversationHistory
           = chatLog Gemini.userMessage (Gemini.assistantMessage now) rounds
         ∧ (Gemini.runRounds model tools status errMessage now rounds).conversationHistory.length
           = 2 * rounds.length
         ∧ (Gemini.runRounds model tools status errMessage now rounds).conversationHistory.map
             Gemini.Message.role
           = altPattern Gemini.GRole.user Gemini.GRole.model rounds.length) := by
  refine ⟨?_, ?_, ?_, ?_⟩
  · intro model tools status rounds
    have hstep : ∀ s p, (Anthropic.round model tools status s p).conversationHistory
        = s.conversationHistory
          ++ [Anthropic.userMessage p.1, Anthropic.assistantMessage p.2] := by
      intro s p
      simp [Anthropic.round, Anthropic.streamResponse, Anthropic.callAPI,
        Anthropic.addToHistory, Anthropic.assistantMessage]
    have h2 : (Anthropic.runRounds model tools status rounds).conversationHistory
        = chatLog Anthropic.userMessage Anthropic.assistantMessage rounds := by
      have h := histFoldl (fun s => s.conversationHistory) Anthropic.userMessage
        Anthropic.assistantMessage (Anthropic.round model tools status) hstep rounds
        Anthropic.initState
      simpa [Anthropic.runRounds, Anthropic.initState] using h
    refine ⟨h2, ?_, ?_⟩
    · rw [h2, chatLog_length]
    · rw [h2]
      exact chatLog_map _ _ _ _ _ (by intro i; cases i <;> rfl) (by intro r; rfl) rounds
  · intro model tools status errBody rounds
    have hstep : ∀ s p, (OpenAI.round model tools status errBody s p).conversationHistory
        = s.conversationHistory
          ++ [OpenAI.userMessage p.1, OpenAI.assistantMessage p.2] := by
      intro s p
      simp [OpenAI.round, OpenAI.streamResponse, OpenAI.callAPI,
        OpenAI.addToHistory, OpenAI.assistantMessage]
    have h2 : (OpenAI.runRounds model tools status errBody rounds).conversationHistory
        = chatLog OpenAI.userMessage OpenAI.assistantMessage rounds := by
      have h := histFoldl (fun s => s.conversationHistory) OpenAI.userMessage
        OpenAI.assistantMessage (OpenAI.round model tools status errBody) hstep rounds
        OpenAI.initState
      simpa [OpenAI.runRounds, OpenAI.initState] using h
    refine ⟨h2, ?_, ?_⟩
    · rw [h2, chatLog_length]
    · rw [h2]
      exact chatLog_map _ _ _ _ _ (by intro i; cases i <;> rfl) (by intro r; rfl) rounds
  · intro model tools status errMessage rounds
    have hstep : ∀ s p,
        (OpenRouter.round model tools status errMessage s p).conversationHistory
        = s.conversationHistory
          ++ [OpenRouter.userMessage p.1, OpenRouter.assistantMessage p.2] := by
      intro s p
      simp [OpenRouter.round, OpenRouter.streamResponse, OpenRouter.callAPI,
        OpenRouter.addToHistory, OpenRouter.assistantMessage]
    have h2 : (OpenRouter.runRounds model tools status errMessage rounds).conversationHistory
        = chatLog OpenRouter.userMessage OpenRouter.assistantMessage rounds := by
      have h := histFoldl (fun s => s.conversationHistory) OpenRouter.userMessage
        OpenRouter.assistantMessage (OpenRouter.round model tools status errMessage)
        hstep rounds OpenRouter.initState
      simpa [OpenRouter.runRounds, OpenRouter.initState] using h
    refine ⟨h2, ?_, ?_⟩
    · rw [h2, chatLog_length]
    · rw [h2]
      exact chatLog_map _ _ _ _ _ (by intro i; cases i <;> rfl) (by intro r; rfl) rounds
  · intro model tools status errMessage now rounds
    have hstep : ∀ s p,
        (Gemini.round model tools status errMessage now s p).conversationHistory
        = s.conversationHistory
          ++ [Gemini.userMessage p.1, Gemini.assistantMessage now p.2] := by
      intro s p
      simp [Gemini.round, Gemini.streamResponse, Gemini.callAPI,
        Gemini.addToHistory, Gemini.assistantMessage, Gemini.toGeminiRole]
    have h2 : (Gemini.runRounds model tools status errMessage now rounds).conversationHistory
        = chatLog Gemini.userMessage (Gemini.assistantMessage now) rounds := by
      have h := histFoldl (fun s => s.conversationHistory) Gemini.userMessage
        (Gemini.assistantMessage now) (Gemini.round model tools status errMessage now)
        hstep rounds Gemini.initState
      simpa [Gemini.runRounds, Gemini.initState] using h
    refine ⟨h2, ?_, ?_⟩
    · rw [h2, chatLog_length]
    · rw [h2]
      exact chatLog_map _ _ _ _ _ (by intro i; cases i <;> rfl) (by intro r; rfl) rounds

/-- C2 counterexample: for the prompt p equal to the empty string, the
claim fails on the side-channel vendors — after setSystemPrompt of the
empty string, the Anthropic request body carries no system field at all
(the code's truthiness guard drops it), so the body does not carry p in
the dedicated field, let alone exactly once. -/
theorem c2_counterexample :
    (Anthropic.callAPI (Anthropic.setSystemPrompt Anthropic.initState "")
        (.str "hi") "claude-sonnet-4-0" [] 200).params.system = none
    ∧ (Anthropic.callAPI (Anthropic.setSystemPrompt Anthropic.initState "")
        (.str "hi") "claude-sonnet-4-0" [] 200).params.messages.map
          Anthropic.Message.role = [Role.user] := by
  exact ⟨rfl, rfl⟩

/-- C2 amended: for every non-empty prompt p, setSystemPrompt followed
by callAPI encodes p exactly once — Anthropic and Gemini reset the
history to empty and carry p only in the dedicated system /
systemInstruction field (their encoded message lists hold only the user
turn, no system-role entry); OpenAI and OpenRouter reset the history to
exactly the synthetic system message and encode p only as that message
at position zero (their request bodies have no system field).  When p is
empty, the side-channel vendors omit the field entirely (see the
counterexample) while the in-line vendors still insert an empty system
message. -/
theorem c2_system_prompt_amended :
    ∀ (p : String) (ast : Anthropic.State) (gst : Gemini.State)
      (ost : OpenAI.State) (rst : OpenRouter.State)
      (msg : ChatInput) (gmsg : Gemini.Input) (model : String)
      (tools : List ToolDef) (status : Nat) (errBody : Option String),
      p ≠ "" →
      ((Anthropic.setSystemPrompt ast p).conversationHistory = []
       ∧ (Anthropic.callAPI (Anthropic.setSystemPrompt ast p) msg model tools
            status).params.system = some p
       ∧ (Anthropic.callAPI (Anthropic.setSystemPrompt ast p) msg model tools
            status).params.messages.map Anthropic.Message.role = [Role.user])
      ∧ ((Gemini.setSystemPrompt gst p).conversationHistory = []
         ∧ (Gemini.callAPI (Gemini.setSystemPrompt gst p) gmsg model tools
              status errBody).params.systemInstruction = some p
         ∧ (Gemini.callAPI (Gemini.setSystemPrompt gst p) gmsg model tools
              status errBody).params.contents.map Gemini.Message.role
            = [Gemini.GRole.user])
      ∧ ((OpenAI.setSystemPrompt ost p).conversationHistory
           = [⟨Role.system, .str p⟩]
         ∧ (OpenAI.callAPI (OpenAI.setSystemPrompt ost p) msg model tools
              status errBody).params.messages
           = [⟨Role.system, .str p⟩, OpenAI.userMessage msg]
         ∧ (OpenAI.callAPI (OpenAI.setSystemPrompt ost p) msg model tools
              status errBody).params.messages.map OpenAI.Message.role
           = [Role.system, Role.user])
      ∧ ((OpenRouter.setSystemPrompt rst p).conversationHistory
           = [⟨Role.system, .str p⟩]
         ∧ (OpenRouter.callAPI (OpenRouter.setSystemPrompt rst p) msg model tools
              status errBody).params.messages
           = [⟨Role.system, .str p⟩, OpenRouter.userMessage msg]
         ∧ (OpenRouter.callAPI (OpenRouter.setSystemPrompt rst p) msg model tools
              status errBody).params.messages.map OpenAI.Message.role
           = [Role.system, Role.user]) := by
  intro p ast gst ost rst msg gmsg model tools status errBody hp
  have hpb : (p == "") = false := by simpa using hp
  have hau : (Anthropic.userMessage msg).role = Role.user := by cases msg <;> rfl
  have hgu : (Gemini.userMessage gmsg).role = Gemini.GRole.user := by
    cases gmsg <;> rfl
  have hou : (OpenAI.userMessage msg).role = Role.user := by cases msg <;> rfl
  have hru : (OpenRouter.userMessage msg).role = Role.user := by cases msg <;> rfl
  refine ⟨⟨rfl, ?_, ?_⟩, ⟨rfl, ?_, ?_⟩, ⟨rfl, ?_, ?_⟩, ⟨rfl, ?_, ?_⟩⟩
  · simp [Anthropic.callAPI, Anthropic.setSystemPrompt, Anthropic.addToHistory, hpb]
  · simp [Anthropic.callAPI, Anthropic.setSystemPrompt, Anthropic.addToHistory, hau]
  · simp [Gemini.callAPI, Gemini.setSystemPrompt, hpb]
  · simp [Gemini.callAPI, Gemini.setSystemPrompt, hgu]
  · simp [OpenAI.callAPI, OpenAI.setSystemPrompt, OpenAI.addToHistory]
  · simp [OpenAI.callAPI, OpenAI.setSystemPrompt, OpenAI.addToHistory, hou]
  · simp [OpenRouter.callAPI, OpenRouter.setSystemPrompt, OpenRouter.addToHistory]
  · simp [OpenRouter.callAPI, OpenRouter.setSystemPrompt, OpenRouter.addToHistory, hru]

/-- C2 amended, witnessed at a concrete non-empty prompt and fresh
states. -/
theorem c2_system_prompt_amended_witness :
    "You host a guessing game" ≠ ""
    ∧ (((Anthropic.setSystemPrompt Anthropic.initState
           "You host a guessing game").conversationHistory = []
       ∧ (Anthropic.callAPI (Anthropic.setSystemPrompt Anthropic.initState
            "You host a guessing game") (.str "hi") "m" [] 200).params.system
          = some "You host a guessing game"
       ∧ (Anthropic.callAPI (Anthropic.setSystemPrompt Anthropic.initState
            "You host a guessing game") (.str "hi") "m" [] 200).params.messages.map
            Anthropic.Message.role = [Role.user])
      ∧ ((Gemini.setSystemPrompt Gemini.initState
            "You host a guessing game").conversationHistory = []
         ∧ (Gemini.callAPI (Gemini.setSystemPrompt Gemini.initState
              "You host a guessing game") (.str "hi") "m" [] 200 none).params.systemInstruction
            = some "You host a guessing game"
         ∧ (Gemini.callAPI (Gemini.setSystemPrompt Gemini.initState
              "You host a guessing game") (.str "hi") "m" [] 200 none).params.contents.map
              Gemini.Message.role = [Gemini.GRole.user])
      ∧ ((OpenAI.setSystemPrompt OpenAI.initState
            "You host a guessing game").conversationHistory
           = [⟨Role.system, .str "You host a guessing game"⟩]
         ∧ (OpenAI.callAPI (OpenAI.setSystemPrompt OpenAI.initState
              "You host a guessing game") (.str "hi") "m" [] 200 none).params.messages
           = [⟨Role.system, .str "You host a guessing game"⟩,
              OpenAI.userMessage (.str "hi")]
         ∧ (OpenAI.callAPI (OpenAI.setSystemPrompt OpenAI.initState
              "You host a guessing game") (.str "hi") "m" [] 200 none).params.messages.map
              OpenAI.Message.role = [Role.system, Role.user])
      ∧ ((OpenRouter.setSystemPrompt OpenRouter.initState
            "You host a guessing game").conversationHistory
           = [⟨Role.system, .str "You host a guessing game"⟩]
         ∧ (OpenRouter.callAPI (OpenRouter.setSystemPrompt OpenRouter.initState
              "You host a guessing game") (.str "hi") "m" [] 200 none).params.messages
           = [⟨Role.system, .str "You host a guessing game"⟩,
              OpenRouter.userMessage (.str "hi")]
         ∧ (OpenRouter.callAPI (OpenRouter.setSystemPrompt OpenRouter.initState
              "You host a guessing game") (.str "hi") "m" [] 200 none).params.messages.map
              OpenAI.Message.role = [Role.system, Role.user])) :=
  ⟨by decide,
   c2_system_prompt_amended "You host a guessing game" Anthropic.initState
     Gemini.initState OpenAI.initState OpenRouter.initState (.str "hi")
     (.str "hi") "m" [] 200 none (by decide)⟩

/-- The wire bytes of the C3 probe: two back-to-back JSON objects with
no delimiter. -/
def c3Stream : List Char := "\x7b\"a\":1\x7d\x7b\"b\":2\x7d".data

/-- C3: the Gemini concatenated-JSON scanner emits the same two
complete object strings for every split of the 14-byte probe into two
chunks (each decoded object is a function of its emitted string, so the
decoded objects agree as well): a trailing incomplete object is carried
to the next chunk and each object is emitted when the brace depth
returns to zero. -/
theorem c3_chunk_boundary_independence :
    ∀ k : Fin 15,
      Gemini.scanChunks [c3Stream.take k.val, c3Stream.drop k.val]
        = ["\x7b\"a\":1\x7d".data, "\x7b\"b\":2\x7d".data] := by decide

/-- The three C4 delta fragments for the OpenAI-family wire shape:
name fragment, then two argument fragments, all for call id x. -/
def c4Fragments : List (StreamLine OAStreamEvent) :=
  [ .payload ⟨[⟨some ⟨none, some [⟨"x", some "function", some "f", none⟩]⟩⟩]⟩,
    .payload ⟨[⟨some ⟨none, some [⟨"x", none, none, some "\x7b\"a\":"⟩]⟩⟩]⟩,
    .payload ⟨[⟨some ⟨none, some [⟨"x", none, none, some "1\x7d"⟩]⟩⟩]⟩ ]

/-- The corresponding event sequence for the Anthropic SSE decoder:
block start carrying id and name, two partial_json deltas, block stop. -/
def c4AnthEvents : List (StreamLine AnthropicStream.Event) :=
  [ .payload ⟨"content_block_start", none, some ⟨"tool_use", "x", "f"⟩⟩,
    .payload ⟨"content_block_delta", some ⟨none, some "\x7b\"a\":"⟩, none⟩,
    .payload ⟨"content_block_delta", some ⟨none, some "1\x7d"⟩, none⟩,
    .payload ⟨"content_block_stop", none, none⟩ ]

/-- C4: both event-stream tool-call decoders assemble the fragment
sequence for call id x into exactly one ToolCall with id x, name f and
the concatenated arguments string — name and argument fragments
accumulate field-wise under the call identifier. -/
theorem c4_tool_call_assembly :
    OpenRouterStream.toolCallValues (OpenRouterStream.decode c4Fragments)
      = [⟨"x", "function", "f", "\x7b\"a\":1\x7d"⟩]
    ∧ (AnthropicStream.decode c4AnthEvents).toolCalls
      = [⟨"x", "function", "f", "\x7b\"a\":1\x7d"⟩] := by
  exact ⟨by decide, by decide⟩

/-- C5 counterexample: the claim's case-insensitive substring test is
not what the code does.  The 400 body message Unknown MODEL name
contains the substring model case-insensitively, so the claim requires
the InvalidModel outcome, but validateApiKey only tests for the literal
substrings model and Model and therefore falls through to the generic
validation-failed message. -/
theorem c5_counterexample :
    strInclCI "Unknown MODEL name" "model" = true
    ∧ Anthropic.validateApiKey 400 (some "Unknown MODEL name")
        = .error (.validationFailed "Unknown MODEL name")
    ∧ Anthropic.ValidationError.validationFailed "Unknown MODEL name"
        ≠ .invalidModel := by
  exact ⟨by decide, rfl, by decide⟩

/-- C5 amended: validateApiKey maps 401 to the invalid-key failure, 429
to the rate-limited failure, 403 to the model-access-denied failure; on
400 it inspects the error body's message for the literal substrings
model or Model (not case-insensitively), yielding the invalid-model
failure when one is present, a generic validation-failed message quoting
the vendor text when both are absent, and the generic
invalid-key-format message when the body is absent, unparsable or its
message is empty. -/
theorem c5_validate_key_amended :
    (∀ b, Anthropic.validateApiKey 401 b = .error .invalidKey)
    ∧ (∀ b, Anthropic.validateApiKey 429 b = .error .rateLimited)
    ∧ (∀ b, Anthropic.validateApiKey 403 b = .error .modelAccessDenied)
    ∧ (∀ m, Anthropic.validateApiKey 400 (some m)
        = .error (if !(m == "") then
            (if strIncl m "model" || strIncl m "Model" then .invalidModel
             else .validationFailed m)
          else .invalidKeyFormat))
    ∧ Anthropic.validateApiKey 400 none = .error .invalidKeyFormat := by
  refine ⟨fun b => by simp [Anthropic.validateApiKey],
    fun b => by simp [Anthropic.validateApiKey],
    fun b => by simp [Anthropic.validateApiKey], fun m => ?_,
    by simp [Anthropic.validateApiKey]⟩
  simp only [Anthropic.validateApiKey]
  norm_num
  split_ifs <;> rfl

/-- C6 counterexample: when the catalog fetch fails, loadModels does
install the fallback catalog in the adapter state, but it rethrows the
fetch error, so the failure does surface to the caller as a failure of
the loadModels operation — contradicting the claim's final conjunct. -/
theorem c6_counterexample :
    (OpenRouter.loadModels OpenRouter.initState (some "sk-or-key")
        (.httpFail 500)).2 = .error (.fetchFailed 500)
    ∧ exceptIsError (OpenRouter.loadModels OpenRouter.initState (some "sk-or-key")
        (.httpFail 500)).2 = true := by
  exact ⟨rfl, rfl⟩

/-- C6 amended: with a truthy key and a fresh adapter, a successful
fetch with zero image-capable entries substitutes the fixed four-entry
fallback catalog and returns it successfully (non-empty, deterministic
default openai/gpt-4o); a failed fetch installs the fixed five-entry
fallback catalog and the same deterministic default in the adapter
state, but the fetch failure is rethrown to the caller rather than
swallowed. -/
theorem c6_catalog_fallback_amended :
    ∀ (key : String) (data : List OpenRouter.ApiModel) (status : Nat),
      key ≠ "" →
      OpenRouter.visionFilter data = [] →
      (OpenRouter.loadModels OpenRouter.initState (some key) (.success data)
         = ({ conversationHistory := [], models := OpenRouter.fallbackEmpty,
              defaultModel := some "openai/gpt-4o", modelsLoaded := true },
            .ok OpenRouter.fallbackEmpty)
       ∧ OpenRouter.fallbackEmpty.length > 0)
      ∧ (OpenRouter.loadModels OpenRouter.initState (some key) (.httpFail status)
          = ({ conversationHistory := [], models := OpenRouter.fallbackError,
               defaultModel := some "openai/gpt-4o", modelsLoaded := true },
             .error (.fetchFailed status))
         ∧ OpenRouter.fallbackError.length > 0) := by
  intro key data status hkey hfilter
  have hkb : (key == "") = false := by simpa using hkey
  refine ⟨⟨?_, by decide⟩, ⟨?_, by decide⟩⟩
  · simp [OpenRouter.loadModels, OpenRouter.initState, truthyOpt, hkb, hfilter,
      OpenRouter.fallbackEmpty]
  · simp [OpenRouter.loadModels, OpenRouter.initState, truthyOpt, hkb]

/-- C6 amended, witnessed at a concrete key, the empty catalog and a
concrete failing status. -/
theorem c6_catalog_fallback_amended_witness :
    "sk-or-key" ≠ "" ∧ OpenRouter.visionFilter [] = []
    ∧ ((OpenRouter.loadModels OpenRouter.initState (some "sk-or-key") (.success [])
         = ({ conversationHistory := [], models := OpenRouter.fallbackEmpty,
              defaultModel := some "openai/gpt-4o", modelsLoaded := true },
            .ok OpenRouter.fallbackEmpty)
       ∧ OpenRouter.fallbackEmpty.length > 0)
      ∧ (OpenRouter.loadModels OpenRouter.initState (some "sk-or-key") (.httpFail 500)
          = ({ conversationHistory := [], models := OpenRouter.fallbackError,
               defaultModel := some "openai/gpt-4o", modelsLoaded := true },
             .error (.fetchFailed 500))
         ∧ OpenRouter.fallbackError.length > 0)) :=
  ⟨by decide, by decide,
   c6_catalog_fallback_amended "sk-or-key" [] 500 (by decide) (by decide)⟩

/-- C7: for every provider adapter, callAPI appends the user turn
before the network outcome is examined; on any non-ok response the
returned operation fails but the user turn remains recorded and the
rest of the adapter state (system prompt, catalog fields) is untouched —
nothing is rolled back. -/
theorem c7_user_turn_recorded_on_failure :
    ∀ (ast : Anthropic.State) (ost : OpenAI.State) (rst : OpenRouter.State)
      (gst : Gemini.State) (msg : ChatInput) (gmsg : Gemini.Input)
      (model : String) (tools : List ToolDef) (status : Nat)
      (errBody : Option String),
      isOkStatus status = false →
      ((Anthropic.callAPI ast msg model tools status).state.conversationHistory
         = ast.conversationHistory ++ [Anthropic.userMessage msg]
       ∧ (Anthropic.callAPI ast msg model tools status).state.systemPrompt
         = ast.systemPrompt
       ∧ exceptIsError (Anthropic.callAPI ast msg model tools status).result = true)
      ∧ ((OpenAI.callAPI ost msg model tools status errBody).state.conversationHistory
           = ost.conversationHistory ++ [OpenAI.userMessage msg]
         ∧ exceptIsError (OpenAI.callAPI ost msg model tools status errBody).result
           = true)
      ∧ ((OpenRouter.callAPI rst msg model tools status errBody).state.conversationHistory
           = rst.conversationHistory ++ [OpenRouter.userMessage msg]
         ∧ (OpenRouter.callAPI rst msg model tools status errBody).state.models
           = rst.models
         ∧ (OpenRouter.callAPI rst msg model tools status errBody).state.defaultModel
           = rst.defaultModel
         ∧ (OpenRouter.callAPI rst msg model tools status errBody).state.modelsLoaded
           = rst.modelsLoaded
         ∧ exceptIsError (OpenRouter.callAPI rst msg model tools status errBody).result
           = true)
      ∧ ((Gemini.callAPI gst gmsg model tools status errBody).state.conversationHistory
           = gst.conversationHistory ++ [Gemini.userMessage gmsg]
         ∧ (Gemini.callAPI gst gmsg model tools status errBody).state.systemPrompt
           = gst.systemPrompt
         ∧ exceptIsError (Gemini.callAPI gst gmsg model tools status errBody).result
           = true) := by
  intro ast ost rst gst msg gmsg model tools status errBody hst
  have hne : ¬(200 ≤ status ∧ status ≤ 299) := by simpa [isOkStatus] using hst
  refine ⟨⟨rfl, rfl, ?_⟩, ⟨rfl, ?_⟩, ⟨rfl, rfl, rfl, rfl, ?_⟩, ⟨rfl, rfl, ?_⟩⟩
  · by_cases h1 : status = 401 <;> by_cases h2 : status = 429 <;>
      simp [Anthropic.callAPI, hst, hne, h1, h2, exceptIsError, isOkStatus]
  · by_cases h1 : status = 401 <;> by_cases h2 : status = 429 <;>
      simp [OpenAI.callAPI, hst, hne, h1, h2, exceptIsError, isOkStatus]
  · by_cases h1 : status = 401 <;> by_cases h2 : status = 429 <;>
      by_cases h3 : status = 402 <;>
      simp [OpenRouter.callAPI, hst, hne, h1, h2, h3, exceptIsError, isOkStatus]
  · by_cases h1 : status = 400 <;> by_cases h2 : status = 429 <;>
      simp [Gemini.callAPI, hst, hne, h1, h2, exceptIsError, isOkStatus]

/-- C7, witnessed at fresh states, a plain-string turn and a concrete
500 response. -/
theorem c7_user_turn_recorded_on_failure_witness :
    isOkStatus 500 = false
    ∧ (((Anthropic.callAPI Anthropic.initState (.str "hi") "m" [] 500).state.conversationHistory
         = Anthropic.initState.conversationHistory
           ++ [Anthropic.userMessage (.str "hi")]
       ∧ (Anthropic.callAPI Anthropic.initState (.str "hi") "m" [] 500).state.systemPrompt
         = Anthropic.initState.systemPrompt
       ∧ exceptIsError (Anthropic.callAPI Anthropic.initState (.str "hi") "m" [] 500).result
         = true)
      ∧ ((OpenAI.callAPI OpenAI.initState (.str "hi") "m" [] 500 none).state.conversationHistory
           = OpenAI.initState.conversationHistory ++ [OpenAI.userMessage (.str "hi")]
         ∧ exceptIsError (OpenAI.callAPI OpenAI.initState (.str "hi") "m" [] 500 none).result
           = true)
      ∧ ((OpenRouter.callAPI OpenRouter.initState (.str "hi") "m" [] 500 none).state.conversationHistory
           = OpenRouter.initState.conversationHistory
             ++ [OpenRouter.userMessage (.str "hi")]
         ∧ (OpenRouter.callAPI OpenRouter.initState (.str "hi") "m" [] 500 none).state.models
           = OpenRouter.initState.models
         ∧ (OpenRouter.callAPI OpenRouter.initState (.str "hi") "m" [] 500 none).state.defaultModel
           = OpenRouter.initState.defaultModel
         ∧ (OpenRouter.callAPI OpenRouter.initState (.str "hi") "m" [] 500 none).state.modelsLoaded
           = OpenRouter.initState.modelsLoaded
         ∧ exceptIsError (OpenRouter.callAPI OpenRouter.initState (.str "hi") "m" [] 500 none).result
           = true)
      ∧ ((Gemini.callAPI Gemini.initState (.str "hi") "m" [] 500 none).state.conversationHistory
           = Gemini.initState.conversationHistory
             ++ [Gemini.userMessage (.str "hi")]
         ∧ (Gemini.callAPI Gemini.initState (.str "hi") "m" [] 500 none).state.systemPrompt
           = Gemini.initState.systemPrompt
         ∧ exceptIsError (Gemini.callAPI Gemini.initState (.str "hi") "m" [] 500 none).result
           = true)) :=
  ⟨by decide,
   c7_user_turn_recorded_on_failure Anthropic.initState OpenAI.initState
     OpenRouter.initState Gemini.initState (.str "hi") (.str "hi") "m" [] 500 none
     (by decide)⟩

/-- C8: for every stream decoder, one fragment that fails to parse — a
malformed data line in the three SSE decoders, a malformed emitted
object (none) in the Gemini concatenated-JSON pipeline — is skipped
without changing the decoder state, so every later valid fragment is
decoded exactly as it would be without the malformed one and still
contributes its text and tool calls. -/
theorem c8_malformed_fragment_skipped :
    (∀ xs ys : List (StreamLine OAStreamEvent),
       OpenAIStream.decode (xs ++ .malformed :: ys) = OpenAIStream.decode (xs ++ ys))
    ∧ (∀ xs ys : List (StreamLine OAStreamEvent),
       OpenRouterStream.decode (xs ++ .malformed :: ys)
         = OpenRouterStream.decode (xs ++ ys))
    ∧ (∀ xs ys : List (StreamLine AnthropicStream.Event),
       AnthropicStream.decode (xs ++ .malformed :: ys)
         = AnthropicStream.decode (xs ++ ys))
    ∧ (∀ (now : Nat) (xs ys : List (Option Gemini.ChunkData)),
       Gemini.processObjects now (xs ++ none :: ys)
         = Gemini.processObjects now (xs ++ ys)) := by
  refine ⟨?_, ?_, ?_, ?_⟩
  · intro xs ys
    exact foldlSkipElem OpenAIStream.step .malformed (fun s => rfl) xs ys {}
  · intro xs ys
    exact foldlSkipElem OpenRouterStream.step .malformed (fun s => rfl) xs ys {}
  · intro xs ys
    exact foldlSkipElem AnthropicStream.step .malformed (fun s => rfl) xs ys {}
  · intro now xs ys
    exact foldlSkipElem (Gemini.processObject now) none (fun s => rfl) xs ys {}

/-- C9 counterexample: the OpenAI adapter's createMultimodalMessage does
not treat an empty image list as zero images — the empty array is
truthy, so alongside the text block it pushes a spurious image block
whose data URL has an empty payload, contradicting the claim that the
content contains only the text block. -/
theorem c9_counterexample :
    OpenAI.createMultimodalMessage (some "hi") (.many [])
      = ⟨.user, .blocks [.text "hi", .imageUrl "data:image/png;base64,"]⟩
    ∧ OpenAI.Content.blocks
        [OpenAI.Block.text "hi", OpenAI.Block.imageUrl "data:image/png;base64,"]
      ≠ .blocks [.text "hi"] := by
  exact ⟨by decide, by decide⟩

/-- C9 amended: for the array-handling providers (Anthropic, Gemini)
the claim holds as stated — an empty image list yields only the text
block, absent text with one image yields only the image block, falsy
entries of a list are skipped, and a single non-array image is exactly
equivalent to a one-element list.  For the OpenAI-family providers the
image parameter is a single value: a falsy value (absent or empty
string) is skipped, but an array is not unpacked — it is interpolated
verbatim into one data URL, so an empty list produces a spurious empty
image block (see the counterexample) rather than no image. -/
theorem c9_multimodal_message_amended :
    (Anthropic.createMultimodalMessage (some "hi") (.many [])
       = ⟨.user, .blocks [.text "hi"]⟩)
    ∧ (Anthropic.createMultimodalMessage none (.one "IMG")
       = ⟨.user, .blocks [.image "IMG"]⟩)
    ∧ (∀ t l, Anthropic.createMultimodalMessage t (.many l)
       = ⟨.user, .blocks ((if truthyOpt t then [.text (t.getD "")] else [])
            ++ (l.filter (fun b => !(b == ""))).map Anthropic.createImageContent)⟩)
    ∧ (∀ t s, Anthropic.createMultimodalMessage t (.one s)
       = Anthropic.createMultimodalMessage t (.many [s]))
    ∧ (Gemini.createMultimodalMessage (some "hi") (.many [])
       = ⟨.user, [.text "hi"]⟩)
    ∧ (Gemini.createMultimodalMessage none (.one "IMG")
       = ⟨.user, [.inlineData "image/png" "IMG"]⟩)
    ∧ (∀ t l, Gemini.createMultimodalMessage t (.many l)
       = ⟨.user, (if truthyOpt t then [.text (t.getD "")] else [])
            ++ (l.filter (fun b => !(b == ""))).map Gemini.createImageContent⟩)
    ∧ (∀ t s, Gemini.createMultimodalMessage t (.one s)
       = Gemini.createMultimodalMessage t (.many [s]))
    ∧ (∀ t, OpenAI.createMultimodalMessage t .absent
       = ⟨.user, .blocks (if truthyOpt t then [.text (t.getD "")] else [])⟩)
    ∧ (∀ t, OpenAI.createMultimodalMessage t (.one "")
       = ⟨.user, .blocks (if truthyOpt t then [.text (t.getD "")] else [])⟩)
    ∧ (∀ t s, OpenAI.createMultimodalMessage t (.one s)
       = ⟨.user, .blocks ((if truthyOpt t then [.text (t.getD "")] else [])
            ++ (if s == "" then []
                else [.imageUrl ("data:image/png;base64," ++ s)]))⟩)
    ∧ (∀ t l, OpenAI.createMultimodalMessage t (.many l)
       = ⟨.user, .blocks ((if truthyOpt t then [.text (t.getD "")] else [])
            ++ [.imageUrl ("data:image/png;base64," ++ String.intercalate "," l)])⟩)
    ∧ (∀ t s, OpenRouter.createMultimodalMessage t (.one s)
       = ⟨.user, .blocks ((if truthyOpt t then [.text (t.getD "")] else [])
            ++ (if s == "" then []
                else [.imageUrl ("data:image/png;base64," ++ s)]))⟩)
    ∧ (∀ t l, OpenRouter.createMultimodalMessage t (.many l)
       = ⟨.user, .blocks ((if truthyOpt t then [.text (t.getD "")] else [])
            ++ [.imageUrl ("data:image/png;base64," ++ String.intercalate "," l)])⟩) := by
  refine ⟨by decide, by decide, fun t l => rfl, fun t s => ?_, by decide, by decide,
    fun t l => rfl, fun t s => ?_, fun t => ?_, fun t => ?_, fun t s => ?_,
    fun t l => ?_, fun t s => ?_, fun t l => ?_⟩
  · by_cases h : s = "" <;>
      simp [Anthropic.createMultimodalMessage, h]
  · by_cases h : s = "" <;>
      simp [Gemini.createMultimodalMessage, h]
  · simp [OpenAI.createMultimodalMessage, ImgArg.truthy]
  · simp [OpenAI.createMultimodalMessage, ImgArg.truthy]
  · by_cases h : s = "" <;>
      simp [OpenAI.createMultimodalMessage, OpenAI.createImageContent,
        ImgArg.truthy, ImgArg.interp, h]
  · simp [OpenAI.createMultimodalMessage, OpenAI.createImageContent,
      ImgArg.truthy, ImgArg.interp]
  · by_cases h : s = "" <;>
      simp [OpenRouter.createMultimodalMessage, OpenRouter.createImageContent,
        ImgArg.truthy, ImgArg.interp, h]
  · simp [OpenRouter.createMultimodalMessage, OpenRouter.createImageContent,
      ImgArg.truthy, ImgArg.interp]

/-- C10: for every provider adapter, a successful streamResponse
appends exactly one assistant turn whose content is the accumulated
text and nothing else (Gemini stores it under its wire role model as a
single text part); the assembled tool calls are returned to the caller
but never enter the history, and a response consisting solely of tool
calls still appends an assistant turn whose text is the empty string. -/
theorem c10_assistant_turn_text_only :
    (∀ (st : Anthropic.State) (d : Anthropic.RespData),
       (Anthropic.streamResponse st d).1.conversationHistory
         = st.conversationHistory
           ++ [⟨Role.assistant, .str (Anthropic.streamResponse st d).2.response⟩]
       ∧ (Anthropic.streamResponse st d).1.systemPrompt = st.systemPrompt
       ∧ (Anthropic.streamResponse st d).2.toolCalls = (Anthropic.extract d.content).2.2)
    ∧ (∀ (st : OpenAI.State) (d : OpenAI.RespData),
       (OpenAI.streamResponse st d).1.conversationHistory
         = st.conversationHistory
           ++ [⟨Role.assistant, .str (OpenAI.streamResponse st d).2.response⟩]
       ∧ (OpenAI.streamResponse st d).2.toolCalls = (OpenAI.extract d).2.2)
    ∧ (∀ (st : OpenRouter.State) (d : OpenAI.RespData),
       (OpenRouter.streamResponse st d).1.conversationHistory
         = st.conversationHistory
           ++ [⟨Role.assistant, .str (OpenRouter.streamResponse st d).2.response⟩])
    ∧ (∀ (st : Gemini.State) (now : Nat) (objs : List (Option Gemini.ChunkData)),
       (Gemini.streamResponse st now objs).1.conversationHistory
         = st.conversationHistory
           ++ [⟨Gemini.GRole.model,
                [.text (Gemini.streamResponse st now objs).2.response]⟩]
       ∧ (Gemini.streamResponse st now objs).1.systemPrompt = st.systemPrompt)
    ∧ ((Anthropic.streamResponse Anthropic.initState
          ⟨[.toolUse "t1" "endGame" "\x7b\x7d"]⟩).1.conversationHistory
        = [⟨Role.assistant, .str ""⟩]
       ∧ (Anthropic.streamResponse Anthropic.initState
            ⟨[.toolUse "t1" "endGame" "\x7b\x7d"]⟩).2
        = ⟨"", true, [⟨"t1", "function", "endGame", "\x7b\x7d"⟩]⟩)
    ∧ ((OpenAI.streamResponse OpenAI.initState
          ⟨[⟨⟨none, [⟨"c1", "function", "f", "\x7b\x7d"⟩]⟩⟩]⟩).1.conversationHistory
        = [⟨Role.assistant, .str ""⟩]
       ∧ (OpenAI.streamResponse OpenAI.initState
            ⟨[⟨⟨none, [⟨"c1", "function", "f", "\x7b\x7d"⟩]⟩⟩]⟩).2
        = ⟨"", true, [⟨"c1", "function", "f", "\x7b\x7d"⟩]⟩)
    ∧ ((OpenRouter.streamResponse OpenRouter.initState
          ⟨[⟨⟨none, [⟨"c1", "function", "f", "\x7b\x7d"⟩]⟩⟩]⟩).1.conversationHistory
        = [⟨Role.assistant, .str ""⟩])
    ∧ ((Gemini.streamResponse Gemini.initState 7
          [some ⟨[⟨some ⟨[⟨none, some ⟨"f", none⟩⟩]⟩⟩]⟩]).1.conversationHistory
        = [⟨Gemini.GRole.model, [.text ""]⟩]
       ∧ (Gemini.streamResponse Gemini.initState 7
            [some ⟨[⟨some ⟨[⟨none, some ⟨"f", none⟩⟩]⟩⟩]⟩]).2
        = ⟨"", true, [⟨"gemini_7_0", "function", "f", "\x7b\x7d"⟩]⟩) := by
  refine ⟨fun st d => ⟨rfl, rfl, rfl⟩, fun st d => ⟨rfl, rfl⟩, fun st d => rfl,
    fun st now objs => ⟨rfl, rfl⟩, ⟨by decide, by decide⟩, ⟨by decide, by decide⟩,
    by decide, ⟨by decide, by decide⟩⟩

end GuessWho
